import Mathlib

/-!
Verification of `Sources/SDL2_Mixer/shim.h`

The header is fourteen lines of conditional compilation.  It is embedded twice:

* `shim` is the header read as a function from the macro environment to the
  sequence of directives the preprocessor acts on (nested `if`/`else`);
* `shimH` is the header as a syntax tree of conditional groups, with a generic
  evaluator `Group.run` and a generic enumeration `Group.branches` of its
  conditional groups.  `run_shimH` shows the two readings agree.
-/

namespace Shim

/-! ## Macro environments -/

/-- Macro environment of a compilation: the replacement text of every macro
name that is defined, `none` for a name that is not. -/
abbrev Env := String → Option String

/-- The test made by `ifdef NAME` and by `elif defined NAME`. -/
def Env.defined (env : Env) (name : String) : Bool := (env name).isSome

/-- Environment built from a list of definitions, as given by `-D` options;
the first definition of a name wins. -/
def Env.ofList (defs : List (String × String)) : Env := fun name => defs.lookup name

/-! ## Directives -/

/-- The directives that occur in the groups of the header. -/
inductive Directive
  /-- Quoted include: the path is taken as written. -/
  | includeQuoted (path : String)
  /-- Angle-bracket include: the path is looked up on the system search path. -/
  | includeAngle (path : String)
  /-- Diagnostic, with the text between the quotes. -/
  | error (msg : String)
  deriving DecidableEq, Repr

/-- Whether a directive is an include, of either form. -/
def Directive.isInclude : Directive → Bool
  | .includeQuoted _ => true
  | .includeAngle _ => true
  | .error _ => false

/-- Whether a directive is a diagnostic. -/
def Directive.isError : Directive → Bool
  | .error _ => true
  | _ => false

/-- The path named by an include, nothing for a diagnostic. -/
def Directive.path : Directive → Option String
  | .includeQuoted p => some p
  | .includeAngle p => some p
  | .error _ => none

/-- The include directives of a directive sequence, in order. -/
def includes (ds : List Directive) : List Directive := ds.filter Directive.isInclude

/-- The messages of the diagnostics of a directive sequence, in order. -/
def diagnostics (ds : List Directive) : List String :=
  ds.filterMap fun d => match d with
    | .error msg => some msg
    | _ => none

/-- The platform key: the four macro names the header tests. -/
def platformKey : List String := ["__APPLE__", "__i386__", "__x86_64__", "__aarch64__"]

/-! ## The header as a function -/

/-- The header `shim.h`: the directives the preprocessor acts on, in order,
under the macro environment `env`. -/
def shim (env : Env) : List Directive :=
  if env.defined "__APPLE__" then
    if env.defined "__i386__" then
      [.includeQuoted "/usr/local/include/SDL2/SDL_mixer.h"]
    else if env.defined "__x86_64__" then
      [.includeQuoted "/usr/local/include/SDL2/SDL_mixer.h"]
    else if env.defined "__aarch64__" then
      [.includeQuoted "/opt/homebrew/include/SDL2/SDL_mixer.h"]
    else
      [.error "Unsupported architecture; Comment this out and if below works for you then please make a pull request.",
       .includeQuoted "/usr/local/include/SDL2/SDL_mixer.h"]
  else
    [.includeAngle "SDL2/SDL_mixer.h"]

/-! ## The header as a tree of conditional groups -/

mutual
/-- A group of lines: directives and conditional sections, in order. -/
inductive Group
  /-- End of the group. -/
  | nil
  /-- A directive line, then the rest of the group. -/
  | line (d : Directive) (rest : Group)
  /-- A conditional section opened by `ifdef name`: its first group, the
  continuation up to `endif`, then the rest of the enclosing group. -/
  | ifdefSec (name : String) (body : Group) (chain : Chain) (rest : Group)
/-- What follows the first group of a conditional section. -/
inductive Chain
  /-- The section is closed by `endif`. -/
  | endif
  /-- An `else` group, then `endif`. -/
  | els (body : Group)
  /-- An `elif defined name` group, then the continuation. -/
  | elifDefined (name : String) (body : Group) (chain : Chain)
end

mutual
/-- The directives of a group that the preprocessor acts on under `env`: of a
conditional section, the first group whose condition holds, the `else` group
when none does. -/
def Group.run (env : Env) : Group → List Directive
  | .nil => []
  | .line d rest => d :: rest.run env
  | .ifdefSec name body chain rest =>
      (if env.defined name then body.run env else chain.run env) ++ rest.run env
/-- The directives acted on in the continuation of a section none of whose
earlier conditions held. -/
def Chain.run (env : Env) : Chain → List Directive
  | .endif => []
  | .els body => body.run env
  | .elifDefined name body chain =>
      if env.defined name then body.run env else chain.run env
end

/-- The header `shim.h`, line by line. -/
def shimH : Group :=
  .ifdefSec "__APPLE__"
    (.ifdefSec "__i386__"
      (.line (.includeQuoted "/usr/local/include/SDL2/SDL_mixer.h") .nil)
      (.elifDefined "__x86_64__"
        (.line (.includeQuoted "/usr/local/include/SDL2/SDL_mixer.h") .nil)
      (.elifDefined "__aarch64__"
        (.line (.includeQuoted "/opt/homebrew/include/SDL2/SDL_mixer.h") .nil)
      (.els
        (.line (.error "Unsupported architecture; Comment this out and if below works for you then please make a pull request.")
        (.line (.includeQuoted "/usr/local/include/SDL2/SDL_mixer.h") .nil)))))
      .nil)
    (.els
      (.line (.includeAngle "SDL2/SDL_mixer.h") .nil))
    .nil

/-- The directive lines that stand directly in a group, those of its nested
conditional sections left out. -/
def Group.lines : Group → List Directive
  | .nil => []
  | .line d rest => d :: rest.lines
  | .ifdefSec _ _ _ rest => rest.lines

/-- An innermost conditional group of a file: whether the preprocessor
processes it, and its directive lines. -/
structure Branch where
  /-- Whether the group is processed. -/
  active : Bool
  /-- The directive lines of the group. -/
  body : List Directive
  deriving DecidableEq, Repr

mutual
/-- The innermost conditional groups nested in a group, in source order; `live`
tells whether the group itself is processed.  A group of a section is
processed when the enclosing group is, no earlier condition of the section
holds, and its own condition (none for `else`) holds. -/
def Group.branches (env : Env) (live : Bool) : Group → List Branch
  | .nil => []
  | .line _ rest => rest.branches env live
  | .ifdefSec name body chain rest =>
      (match body.branches env (live && env.defined name) with
        | [] => [⟨live && env.defined name, body.lines⟩]
        | bs => bs)
      ++ chain.branches env (live && !env.defined name)
      ++ rest.branches env live
/-- The innermost conditional groups of the continuation of a section; `live`
tells whether the enclosing group is processed and no earlier condition of
the section held. -/
def Chain.branches (env : Env) (live : Bool) : Chain → List Branch
  | .endif => []
  | .els body =>
      (match body.branches env live with
        | [] => [⟨live, body.lines⟩]
        | bs => bs)
  | .elifDefined name body chain =>
      (match body.branches env (live && env.defined name) with
        | [] => [⟨live && env.defined name, body.lines⟩]
        | bs => bs)
      ++ chain.branches env (live && !env.defined name)
end

/-! ## The simplified table -/

/-- The simplified table for Apple environments, as the specification words
it: the Homebrew path exactly when `__aarch64__` is defined and neither
`__i386__` nor `__x86_64__` is, the `/usr/local` path otherwise. -/
def simplifiedTable (env : Env) : String :=
  if env.defined "__aarch64__" ∧ ¬ env.defined "__i386__" ∧ ¬ env.defined "__x86_64__" then
    "/opt/homebrew/include/SDL2/SDL_mixer.h"
  else
    "/usr/local/include/SDL2/SDL_mixer.h"

/-! ## Agreement of the two readings -/

/-- The two readings of the header agree. -/
theorem run_shimH (env : Env) : shimH.run env = shim env := by
  simp only [shimH, shim, Group.run, Chain.run, List.append_nil]

/-- The five innermost conditional groups of the header, in source order. -/
theorem branches_shimH (env : Env) :
    shimH.branches env true =
      [⟨env.defined "__APPLE__" && env.defined "__i386__",
          [.includeQuoted "/usr/local/include/SDL2/SDL_mixer.h"]⟩,
       ⟨env.defined "__APPLE__" && !env.defined "__i386__" && env.defined "__x86_64__",
          [.includeQuoted "/usr/local/include/SDL2/SDL_mixer.h"]⟩,
       ⟨env.defined "__APPLE__" && !env.defined "__i386__" && !env.defined "__x86_64__"
            && env.defined "__aarch64__",
          [.includeQuoted "/opt/homebrew/include/SDL2/SDL_mixer.h"]⟩,
       ⟨env.defined "__APPLE__" && !env.defined "__i386__" && !env.defined "__x86_64__"
            && !env.defined "__aarch64__",
          [.error "Unsupported architecture; Comment this out and if below works for you then please make a pull request.",
           .includeQuoted "/usr/local/include/SDL2/SDL_mixer.h"]⟩,
       ⟨!env.defined "__APPLE__",
          [.includeAngle "SDL2/SDL_mixer.h"]⟩] := by
  simp [shimH, Group.branches, Chain.branches, Group.lines]

/-! ## Resolution on recognised Apple keys -/

/-- C1: in every macro environment that defines `__APPLE__` and at least one
of `__i386__`, `__x86_64__`, the header acts on exactly one directive, the
quoted include of `/usr/local/include/SDL2/SDL_mixer.h`: that is its only
include, and it raises no diagnostic. -/
theorem apple_x86_resolves_usr_local (env : Env)
    (hApple : env.defined "__APPLE__" = true)
    (hArch : env.defined "__i386__" = true ∨ env.defined "__x86_64__" = true) :
    shim env = [.includeQuoted "/usr/local/include/SDL2/SDL_mixer.h"]
      ∧ includes (shim env) = [.includeQuoted "/usr/local/include/SDL2/SDL_mixer.h"]
      ∧ diagnostics (shim env) = [] := by
  have h : shim env = [.includeQuoted "/usr/local/include/SDL2/SDL_mixer.h"] := by
    unfold shim
    rcases hArch with h | h
    · simp [hApple, h]
    · simp [hApple, h]
  rw [h]
  exact ⟨rfl, rfl, rfl⟩

/-- C1 at an Apple `x86_64` environment, and at one that defines all three
architecture macros. -/
theorem apple_x86_resolves_usr_local_witness :
    (shim (Env.ofList [("__APPLE__", "1"), ("__x86_64__", "1")])
        = [.includeQuoted "/usr/local/include/SDL2/SDL_mixer.h"]
      ∧ includes (shim (Env.ofList [("__APPLE__", "1"), ("__x86_64__", "1")]))
        = [.includeQuoted "/usr/local/include/SDL2/SDL_mixer.h"]
      ∧ diagnostics (shim (Env.ofList [("__APPLE__", "1"), ("__x86_64__", "1")])) = [])
    ∧ shim (Env.ofList [("__aarch64__", "1"), ("__i386__", "1"), ("__x86_64__", "1"),
          ("__APPLE__", "1")])
        = [.includeQuoted "/usr/local/include/SDL2/SDL_mixer.h"] :=
  ⟨apple_x86_resolves_usr_local (Env.ofList [("__APPLE__", "1"), ("__x86_64__", "1")])
      (by decide) (Or.inr (by decide)),
   (apple_x86_resolves_usr_local
      (Env.ofList [("__aarch64__", "1"), ("__i386__", "1"), ("__x86_64__", "1"),
        ("__APPLE__", "1")])
      (by decide) (Or.inl (by decide))).1⟩

/-- C2: in every macro environment that defines `__APPLE__` and `__aarch64__`
and neither `__i386__` nor `__x86_64__`, the header acts on exactly one
directive, the quoted include of `/opt/homebrew/include/SDL2/SDL_mixer.h`:
that is its only include, and it raises no diagnostic. -/
theorem apple_arm64_resolves_homebrew (env : Env)
    (hApple : env.defined "__APPLE__" = true)
    (hArm : env.defined "__aarch64__" = true)
    (hI386 : env.defined "__i386__" = false)
    (hX64 : env.defined "__x86_64__" = false) :
    shim env = [.includeQuoted "/opt/homebrew/include/SDL2/SDL_mixer.h"]
      ∧ includes (shim env) = [.includeQuoted "/opt/homebrew/include/SDL2/SDL_mixer.h"]
      ∧ diagnostics (shim env) = [] := by
  have h : shim env = [.includeQuoted "/opt/homebrew/include/SDL2/SDL_mixer.h"] := by
    simp [shim, hApple, hArm, hI386, hX64]
  rw [h]
  exact ⟨rfl, rfl, rfl⟩

/-- C2 at an Apple `aarch64` environment. -/
theorem apple_arm64_resolves_homebrew_witness :
    shim (Env.ofList [("__APPLE__", "1"), ("__aarch64__", "1")])
        = [.includeQuoted "/opt/homebrew/include/SDL2/SDL_mixer.h"]
      ∧ includes (shim (Env.ofList [("__APPLE__", "1"), ("__aarch64__", "1")]))
        = [.includeQuoted "/opt/homebrew/include/SDL2/SDL_mixer.h"]
      ∧ diagnostics (shim (Env.ofList [("__APPLE__", "1"), ("__aarch64__", "1")])) = [] :=
  apple_arm64_resolves_homebrew (Env.ofList [("__APPLE__", "1"), ("__aarch64__", "1")])
    (by decide) (by decide) (by decide) (by decide)

/-! ## Resolution outside Apple -/

/-- C3: in every macro environment that does not define `__APPLE__`, whatever
it says of `__i386__`, `__x86_64__` and `__aarch64__`, the header acts on
exactly one directive, the angle-bracket include of `SDL2/SDL_mixer.h`, and
raises no diagnostic. -/
theorem non_apple_resolves_system (env : Env)
    (hApple : env.defined "__APPLE__" = false) :
    shim env = [.includeAngle "SDL2/SDL_mixer.h"]
      ∧ includes (shim env) = [.includeAngle "SDL2/SDL_mixer.h"]
      ∧ diagnostics (shim env) = [] := by
  have h : shim env = [.includeAngle "SDL2/SDL_mixer.h"] := by
    simp [shim, hApple]
  rw [h]
  exact ⟨rfl, rfl, rfl⟩

/-- C3 at the empty environment, and at non-Apple environments that define
one, or all, of the architecture macros. -/
theorem non_apple_resolves_system_witness :
    (shim (Env.ofList []) = [.includeAngle "SDL2/SDL_mixer.h"]
      ∧ includes (shim (Env.ofList [])) = [.includeAngle "SDL2/SDL_mixer.h"]
      ∧ diagnostics (shim (Env.ofList [])) = [])
    ∧ shim (Env.ofList [("__linux__", "1"), ("__aarch64__", "1")])
        = [.includeAngle "SDL2/SDL_mixer.h"]
    ∧ shim (Env.ofList [("__i386__", "1"), ("__x86_64__", "1"), ("__aarch64__", "1")])
        = [.includeAngle "SDL2/SDL_mixer.h"] :=
  ⟨non_apple_resolves_system (Env.ofList []) (by decide),
   (non_apple_resolves_system (Env.ofList [("__linux__", "1"), ("__aarch64__", "1")])
      (by decide)).1,
   (non_apple_resolves_system
      (Env.ofList [("__i386__", "1"), ("__x86_64__", "1"), ("__aarch64__", "1")])
      (by decide)).1⟩

/-! ## The diagnostic -/

/-- C4: the header raises its diagnostic exactly in the environments that
define `__APPLE__` and none of `__i386__`, `__x86_64__`, `__aarch64__`; so no
recognised Apple key and no environment without `__APPLE__` raises one. -/
theorem diagnostic_iff_unrecognised_apple (env : Env) :
    (∃ d ∈ shim env, d.isError = true) ↔
      (env.defined "__APPLE__" = true ∧ env.defined "__i386__" = false
        ∧ env.defined "__x86_64__" = false ∧ env.defined "__aarch64__" = false) := by
  unfold shim
  generalize env.defined "__APPLE__" = a
  generalize env.defined "__i386__" = i
  generalize env.defined "__x86_64__" = x
  generalize env.defined "__aarch64__" = r
  cases a <;> cases i <;> cases x <;> cases r <;> simp [Directive.isError]

/-- C5: in every macro environment that defines `__APPLE__` and none of
`__i386__`, `__x86_64__`, `__aarch64__`, the header acts on two directives in
this order: the diagnostic, then the quoted include of
`/usr/local/include/SDL2/SDL_mixer.h`; that include is the one every Apple
environment with `__i386__` or `__x86_64__` resolves to. -/
theorem unrecognised_apple_falls_back (env : Env)
    (hApple : env.defined "__APPLE__" = true)
    (hI386 : env.defined "__i386__" = false)
    (hX64 : env.defined "__x86_64__" = false)
    (hArm : env.defined "__aarch64__" = false) :
    shim env =
        [.error "Unsupported architecture; Comment this out and if below works for you then please make a pull request.",
         .includeQuoted "/usr/local/include/SDL2/SDL_mixer.h"]
      ∧ ∀ env' : Env, env'.defined "__APPLE__" = true →
          (env'.defined "__i386__" = true ∨ env'.defined "__x86_64__" = true) →
          includes (shim env) = includes (shim env') := by
  have h : shim env =
      [.error "Unsupported architecture; Comment this out and if below works for you then please make a pull request.",
       .includeQuoted "/usr/local/include/SDL2/SDL_mixer.h"] := by
    simp [shim, hApple, hI386, hX64, hArm]
  refine ⟨h, ?_⟩
  intro env' hA hX
  have h' : shim env' = [.includeQuoted "/usr/local/include/SDL2/SDL_mixer.h"] := by
    unfold shim
    rcases hX with hX | hX
    · simp [hA, hX]
    · simp [hA, hX]
  rw [h, h']
  rfl

/-- C5 at an Apple environment with an architecture the header does not know. -/
theorem unrecognised_apple_falls_back_witness :
    shim (Env.ofList [("__APPLE__", "1"), ("__riscv", "1")]) =
        [.error "Unsupported architecture; Comment this out and if below works for you then please make a pull request.",
         .includeQuoted "/usr/local/include/SDL2/SDL_mixer.h"]
      ∧ ∀ env' : Env, env'.defined "__APPLE__" = true →
          (env'.defined "__i386__" = true ∨ env'.defined "__x86_64__" = true) →
          includes (shim (Env.ofList [("__APPLE__", "1"), ("__riscv", "1")]))
            = includes (shim env') :=
  unrecognised_apple_falls_back (Env.ofList [("__APPLE__", "1"), ("__riscv", "1")])
    (by decide) (by decide) (by decide) (by decide)

/-- C9: in every macro environment that defines `__APPLE__` and none of
`__i386__`, `__x86_64__`, `__aarch64__`, the header raises one diagnostic, and
its message is exactly "Unsupported architecture; Comment this out and if
below works for you then please make a pull request."; the message starts by
naming the cause, "Unsupported architecture", and asks for a "pull request". -/
theorem diagnostic_message (env : Env)
    (hApple : env.defined "__APPLE__" = true)
    (hI386 : env.defined "__i386__" = false)
    (hX64 : env.defined "__x86_64__" = false)
    (hArm : env.defined "__aarch64__" = false) :
    ∃ msg, diagnostics (shim env) = [msg]
      ∧ msg = "Unsupported architecture; Comment this out and if below works for you then please make a pull request."
      ∧ (∃ rest, msg = "Unsupported architecture" ++ rest)
      ∧ (∃ before after, msg = before ++ "pull request" ++ after) := by
  refine ⟨_, ?_, rfl, ⟨"; Comment this out and if below works for you then please make a pull request.", by decide⟩,
    ⟨"Unsupported architecture; Comment this out and if below works for you then please make a ", ".", by decide⟩⟩
  simp [shim, hApple, hI386, hX64, hArm, diagnostics]

/-- C9 at an Apple environment that defines no architecture macro. -/
theorem diagnostic_message_witness :
    ∃ msg, diagnostics (shim (Env.ofList [("__APPLE__", "")])) = [msg]
      ∧ msg = "Unsupported architecture; Comment this out and if below works for you then please make a pull request."
      ∧ (∃ rest, msg = "Unsupported architecture" ++ rest)
      ∧ (∃ before after, msg = before ++ "pull request" ++ after) :=
  diagnostic_message (Env.ofList [("__APPLE__", "")])
    (by decide) (by decide) (by decide) (by decide)

/-! ## One branch, one include -/

/-- C6: in every macro environment the header has five innermost conditional
groups, exactly one of them is processed, the directives the header acts on
are the lines of that group, and exactly one of them is an include. -/
theorem exactly_one_branch (env : Env) :
    (shimH.branches env true).length = 5
      ∧ (shimH.branches env true).filter (·.active) = [⟨true, shim env⟩]
      ∧ shimH.run env = shim env
      ∧ (includes (shim env)).length = 1 := by
  refine ⟨?_, ?_, run_shimH env, ?_⟩
  · rw [branches_shimH]
    rfl
  · rw [branches_shimH]
    unfold shim
    generalize env.defined "__APPLE__" = a
    generalize env.defined "__i386__" = i
    generalize env.defined "__x86_64__" = x
    generalize env.defined "__aarch64__" = r
    cases a <;> cases i <;> cases x <;> cases r <;> rfl
  · unfold shim
    generalize env.defined "__APPLE__" = a
    generalize env.defined "__i386__" = i
    generalize env.defined "__x86_64__" = x
    generalize env.defined "__aarch64__" = r
    cases a <;> cases i <;> cases x <;> cases r <;> rfl

/-- C7: the include the header acts on is always one of three: the quoted
`/usr/local/include/SDL2/SDL_mixer.h`, the quoted
`/opt/homebrew/include/SDL2/SDL_mixer.h`, the angle-bracket
`SDL2/SDL_mixer.h`.  Each is reached in some environment; every path ends in
`SDL2/SDL_mixer.h`; a quoted include occurs only where `__APPLE__` is defined
and an angle-bracket include only where it is not. -/
theorem include_targets :
    (∀ env : Env, ∃ t, includes (shim env) = [t]
        ∧ (t = .includeQuoted "/usr/local/include/SDL2/SDL_mixer.h"
            ∨ t = .includeQuoted "/opt/homebrew/include/SDL2/SDL_mixer.h"
            ∨ t = .includeAngle "SDL2/SDL_mixer.h"))
      ∧ (∃ env : Env,
          includes (shim env) = [.includeQuoted "/usr/local/include/SDL2/SDL_mixer.h"])
      ∧ (∃ env : Env,
          includes (shim env) = [.includeQuoted "/opt/homebrew/include/SDL2/SDL_mixer.h"])
      ∧ (∃ env : Env, includes (shim env) = [.includeAngle "SDL2/SDL_mixer.h"])
      ∧ (∀ (env : Env) (d : Directive), d ∈ includes (shim env) →
          ∃ dir, d.path = some (dir ++ "SDL2/SDL_mixer.h"))
      ∧ (∀ (env : Env) (p : String), .includeQuoted p ∈ includes (shim env) →
          env.defined "__APPLE__" = true)
      ∧ (∀ (env : Env) (p : String), .includeAngle p ∈ includes (shim env) →
          env.defined "__APPLE__" = false) := by
  refine ⟨?_, ⟨Env.ofList [("__APPLE__", "1"), ("__i386__", "1")], by decide⟩,
    ⟨Env.ofList [("__APPLE__", "1"), ("__aarch64__", "1")], by decide⟩,
    ⟨Env.ofList [], by decide⟩, ?_, ?_, ?_⟩
  · intro env
    unfold shim
    generalize env.defined "__APPLE__" = a
    generalize env.defined "__i386__" = i
    generalize env.defined "__x86_64__" = x
    generalize env.defined "__aarch64__" = r
    cases a <;> cases i <;> cases x <;> cases r <;> simp [includes, Directive.isInclude]
  · intro env d
    unfold shim
    generalize env.defined "__APPLE__" = a
    generalize env.defined "__i386__" = i
    generalize env.defined "__x86_64__" = x
    generalize env.defined "__aarch64__" = r
    cases a <;> cases i <;> cases x <;> cases r <;>
      simp only [includes, Directive.isInclude, List.filter, List.mem_singleton,
        Bool.false_eq_true, if_true, if_false] <;>
      rintro rfl <;>
      first
        | exact ⟨"/usr/local/include/", by decide⟩
        | exact ⟨"/opt/homebrew/include/", by decide⟩
        | exact ⟨"", by decide⟩
  · intro env p
    unfold shim
    generalize env.defined "__APPLE__" = a
    cases a <;> simp [includes, Directive.isInclude]
  · intro env p
    unfold shim
    generalize env.defined "__APPLE__" = a
    generalize env.defined "__i386__" = i
    generalize env.defined "__x86_64__" = x
    generalize env.defined "__aarch64__" = r
    cases a <;> cases i <;> cases x <;> cases r <;> simp [includes, Directive.isInclude]

/-! ## Determinism -/

/-- C8: two macro environments that agree on which of `__APPLE__`,
`__i386__`, `__x86_64__`, `__aarch64__` are defined make the header act on
the same directives, whatever else they define and whatever the replacement
texts are. -/
theorem resolution_depends_on_key_only (env₁ env₂ : Env)
    (h : ∀ name ∈ platformKey, env₁.defined name = env₂.defined name) :
    shim env₁ = shim env₂
      ∧ includes (shim env₁) = includes (shim env₂)
      ∧ diagnostics (shim env₁) = diagnostics (shim env₂) := by
  have hA := h "__APPLE__" (by simp [platformKey])
  have hI := h "__i386__" (by simp [platformKey])
  have hX := h "__x86_64__" (by simp [platformKey])
  have hR := h "__aarch64__" (by simp [platformKey])
  have hs : shim env₁ = shim env₂ := by
    unfold shim
    rw [hA, hI, hX, hR]
  rw [hs]
  exact ⟨rfl, rfl, rfl⟩

/-- C8 at two Apple `aarch64` environments that differ in replacement texts
and in the other macros they define. -/
theorem resolution_depends_on_key_only_witness :
    shim (Env.ofList [("__APPLE__", "1"), ("__aarch64__", "1")])
        = shim (Env.ofList [("NDEBUG", ""), ("__aarch64__", ""), ("__APPLE__", "2"),
            ("__arm64__", "1")])
      ∧ includes (shim (Env.ofList [("__APPLE__", "1"), ("__aarch64__", "1")]))
        = includes (shim (Env.ofList [("NDEBUG", ""), ("__aarch64__", ""), ("__APPLE__", "2"),
            ("__arm64__", "1")]))
      ∧ diagnostics (shim (Env.ofList [("__APPLE__", "1"), ("__aarch64__", "1")]))
        = diagnostics (shim (Env.ofList [("NDEBUG", ""), ("__aarch64__", ""),
            ("__APPLE__", "2"), ("__arm64__", "1")])) :=
  resolution_depends_on_key_only _ _ (by decide)

/-! ## The simplified table -/

/-- C10: in every macro environment that defines `__APPLE__`, the include the
header acts on is the quoted include of the path the simplified table gives;
it is the Homebrew path exactly when `__aarch64__` is defined and neither
`__i386__` nor `__x86_64__` is; and where `__aarch64__` is defined together
with `__i386__` or `__x86_64__` it is the `/usr/local` path. -/
theorem apple_resolution_is_simplified_table (env : Env)
    (hApple : env.defined "__APPLE__" = true) :
    includes (shim env) = [.includeQuoted (simplifiedTable env)]
      ∧ (includes (shim env) = [.includeQuoted "/opt/homebrew/include/SDL2/SDL_mixer.h"] ↔
          (env.defined "__aarch64__" = true ∧ env.defined "__i386__" = false
            ∧ env.defined "__x86_64__" = false))
      ∧ (includes (shim env) ≠ [.includeQuoted "/opt/homebrew/include/SDL2/SDL_mixer.h"] →
          includes (shim env) = [.includeQuoted "/usr/local/include/SDL2/SDL_mixer.h"])
      ∧ (env.defined "__aarch64__" = true →
          (env.defined "__i386__" = true ∨ env.defined "__x86_64__" = true) →
          includes (shim env) = [.includeQuoted "/usr/local/include/SDL2/SDL_mixer.h"]) := by
  unfold shim simplifiedTable
  rw [hApple]
  generalize env.defined "__i386__" = i
  generalize env.defined "__x86_64__" = x
  generalize env.defined "__aarch64__" = r
  cases i <;> cases x <;> cases r <;> simp [includes, Directive.isInclude]

/-- C10 at an Apple environment that defines `__aarch64__` together with
`__x86_64__`: the `/usr/local` path, not the Homebrew path. -/
theorem apple_resolution_is_simplified_table_witness :
    includes (shim (Env.ofList [("__APPLE__", "1"), ("__aarch64__", "1"), ("__x86_64__", "1")]))
      = [.includeQuoted "/usr/local/include/SDL2/SDL_mixer.h"] :=
  (apple_resolution_is_simplified_table
    (Env.ofList [("__APPLE__", "1"), ("__aarch64__", "1"), ("__x86_64__", "1")])
    (by decide)).2.2.2 (by decide) (Or.inr (by decide))

end Shim
